import Mathlib

/-!
Verification of the dynamic-deception honeypot fleet (SSH, HTTP, SMTP,
MySQL honeypots and the decoy e-commerce API).

The Python sources are shallowly embedded: Python `str` values are
modelled as `List Char` (all inputs relevant to the claims are ASCII),
`bytes` values as `List Nat` (one `Nat` in `[0,256)` per byte), and the
`os.urandom` source of randomness as an explicit function parameter.
Each definition mirrors the function of the same name in the sources.
-/

namespace Py

/-- Python `str` modelled as a list of characters. -/
abbrev Str := List Char

/-- Coerce a Lean string literal to the model type. -/
def strOf (s : String) : Str := s.data

/-- Python `str.isspace` for the ASCII whitespace characters
(space, tab, newline, carriage return, vertical tab, form feed). -/
def isSpace (c : Char) : Bool :=
  c = ' ' || c = '\t' || c = '\n' || c = '\r' || c = '\x0b' || c = '\x0c'

/-- Python `str.lstrip()` (ASCII whitespace). -/
def lstrip (s : Str) : Str := s.dropWhile isSpace

/-- Python `str.rstrip()` (ASCII whitespace). -/
def rstrip (s : Str) : Str := (s.reverse.dropWhile isSpace).reverse

/-- Python `str.strip()` (ASCII whitespace). -/
def strip (s : Str) : Str := rstrip (lstrip s)

/-- Python `str.lower()` (ASCII letters). -/
def lower (s : Str) : Str := s.map Char.toLower

/-- Python `str.isalnum()`: nonempty and every character alphanumeric. -/
def isalnum (s : Str) : Bool := !s.isEmpty && s.all Char.isAlphanum

/-- Auxiliary for `pySplit`: the separator is `c0 :: sep` (hence nonempty).
The first argument is recursion fuel; every step consumes at least one
input character, so fuel `s.length + 1` never runs out. -/
def pySplitAux (c0 : Char) (sep : Str) : Nat → Str → Str → List Str
  | 0, s, acc => [acc.reverse ++ s]
  | _ + 1, [], acc => [acc.reverse]
  | fuel + 1, c :: rest, acc =>
    if (c0 :: sep).isPrefixOf (c :: rest) then
      acc.reverse :: pySplitAux c0 sep fuel (rest.drop sep.length) []
    else
      pySplitAux c0 sep fuel rest (c :: acc)

/-- Python `s.split(sep)` for a nonempty separator `c0 :: sep`:
splits on every non-overlapping occurrence, keeping empty chunks. -/
def pySplit (c0 : Char) (sep : Str) (s : Str) : List Str :=
  pySplitAux c0 sep (s.length + 1) s []

/-- Python `sep.join(xs)`. -/
def joinWith (sep : Str) : List Str → Str
  | [] => []
  | [x] => x
  | x :: y :: xs => x ++ sep ++ joinWith sep (y :: xs)

/-- Python `needle in hay` (substring containment). -/
def containsSub (needle hay : Str) : Bool :=
  hay.tails.any (fun t => needle.isPrefixOf t)

/-- Python `s.split(sep, 1)` when `sep` occurs in `s`; `none` when the
separator does not occur. -/
def splitOnce (c0 : Char) (sep : Str) (s : Str) : Option (Str × Str) :=
  match pySplit c0 sep s with
  | [] => none
  | [_] => none
  | a :: b :: rest => some (a, joinWith (c0 :: sep) (b :: rest))

end Py

namespace SSH

open Py (Str strOf)

/-- `SSHHoneypot.parse_auth_packet`: split the (decoded) buffer on NUL;
the first nonempty alphanumeric token shorter than 64 characters is the
username, the next nonempty token shorter than 64 characters is the
password; return `none` when no username is found. -/
def parse_auth_packet (data : Str) : Option (Str × Str) :=
  let parts := Py.pySplit '\x00' [] data
  let up := parts.foldl
    (fun (up : Str × Str) part =>
      if !part.isEmpty && part.length < 64 then
        if up.1.isEmpty && Py.isalnum part then (part, up.2)
        else if !up.1.isEmpty && up.2.isEmpty then (up.1, part)
        else up
      else up)
    ([], [])
  if !up.1.isEmpty then some up else none

/-- `max_attempts = 3` in `SSHHoneypot.simulate_handshake`. -/
def max_attempts : Nat := 3

/-- The authentication loop of `SSHHoneypot.simulate_handshake`, counting
recovered login attempts over the sequence of received buffers: while
fewer than `max_attempts` attempts have been recovered, each buffer that
parses increments the count; buffers that fail to parse are skipped and
the loop keeps reading. -/
def loginAttempts : Nat → List Str → Nat
  | n, [] => n
  | n, d :: rest =>
    if n < max_attempts then
      match parse_auth_packet d with
      | some _ => loginAttempts (n + 1) rest
      | none => loginAttempts n rest
    else n

/-- Number of login attempts recovered by `simulate_handshake` from the
given sequence of reads. -/
def simulate_handshake (reads : List Str) : Nat := loginAttempts 0 reads

/-- The process-wide ban table `banned_ips : source_ip → expiry`. -/
abbrev BanTable := Str → Option Nat

/-- `SSHHoneypot.ban_ip`: record `ip → now + ban_time`. -/
def ban_ip (banned : BanTable) (ip : Str) (now ban_time : Nat) : BanTable :=
  fun j => if j = ip then some (now + ban_time) else banned j

/-- Ban decision at the end of `simulate_handshake`: the IP is banned
iff the loop ended with `login_attempts >= max_attempts`. -/
def banTableAfter (banned : BanTable) (reads : List Str) (ip : Str)
    (now ban_time : Nat) : BanTable :=
  if max_attempts ≤ simulate_handshake reads then ban_ip banned ip now ban_time
  else banned

/-- The empty ban table. -/
def emptyBanTable : BanTable := fun _ => none

/-- `struct.pack(">I", n)`: big-endian uint32 as four bytes. -/
def u32be (n : Nat) : List Nat :=
  [n / 2 ^ 24 % 256, n / 2 ^ 16 % 256, n / 2 ^ 8 % 256, n % 256]

/-- A length-prefixed SSH name-list: `struct.pack(">I", len(algo)) + algo`. -/
def nameListBytes (s : Str) : List Nat := u32be s.length ++ s.map Char.toNat

/-- Advertised algorithm name-lists of `build_kexinit`. -/
def kex_algorithms : Str := strOf "curve25519-sha256,ecdh-sha2-nistp256"

def host_key_algorithms : Str := strOf "ssh-ed25519,ssh-rsa"

def encryption : Str := strOf "aes256-ctr,aes128-ctr"

def mac : Str := strOf "hmac-sha2-256,hmac-sha1"

def compression : Str := strOf "none"

def languages : Str := strOf ""

/-- The KEXINIT payload of `SSHHoneypot.build_kexinit`: message id 20,
the 16 random cookie bytes, the ten length-prefixed name-lists,
`first_kex_packet_follows = 0` and four reserved zero bytes. -/
def kexinit_payload (cookie : List Nat) : List Nat :=
  [20] ++ cookie ++
    (List.map nameListBytes
      [kex_algorithms, host_key_algorithms, encryption, encryption,
       mac, mac, compression, compression, languages, languages]).flatten ++
    [0] ++ [0, 0, 0, 0]

/-- The padding computation shared by `build_kexinit` and
`build_auth_failure`: `padding_len = 8 - ((packet_len + 4) % 8)`,
bumped by 8 when below 4. -/
def padding_len (packet_len : Nat) : Nat :=
  let p := 8 - (packet_len + 4) % 8
  if p < 4 then p + 8 else p

/-- `SSHHoneypot.build_kexinit`, with `os.urandom` passed explicitly:
wrap the payload as big-endian uint32 length field, padding-length byte,
payload, random padding. -/
def build_kexinit (urandom : Nat → List Nat) : List Nat :=
  let payload := kexinit_payload (urandom 16)
  let packet_len := payload.length + 1
  let pl := padding_len packet_len
  u32be (packet_len + pl) ++ [pl] ++ payload ++ urandom pl

/-- The USERAUTH_FAILURE payload of `SSHHoneypot.build_auth_failure`:
message id 51, length-prefixed name-list `"password,keyboard"`, and a
partial-success byte of 0. -/
def auth_failure_payload : List Nat :=
  [51] ++ u32be 17 ++ (strOf "password,keyboard").map Char.toNat ++ [0]

/-- `SSHHoneypot.build_auth_failure`: same framing and padding rule as
`build_kexinit`. -/
def build_auth_failure (urandom : Nat → List Nat) : List Nat :=
  let payload := auth_failure_payload
  let packet_len := payload.length + 1
  let pl := padding_len packet_len
  u32be (packet_len + pl) ++ [pl] ++ payload ++ urandom pl

/-- The property claimed of the padding choice: for a packet whose
payload has `payloadLen` bytes (so the length field holds
`payloadLen + 1 + p` for padding length `p`), `p` is the smallest value
`≥ 4` making `(4 + length_field) % 8 = 0`. -/
def sshPaddingSpec (payloadLen p : Nat) : Prop :=
  4 ≤ p ∧ (4 + (payloadLen + 1 + p)) % 8 = 0 ∧
    ∀ q, 4 ≤ q → (4 + (payloadLen + 1 + q)) % 8 = 0 → p ≤ q

end SSH

namespace SMTP

open Py (Str strOf)

/-- `"\n".join(message_data)`. -/
def joinNL (xs : List Str) : Str := Py.joinWith (strOf "\n") xs

/-- One non-terminator line received in DATA mode
(`SMTPHoneypot.handle_connection`): the line is appended to
`message_data` only if the accumulated size is still strictly below
`max_message_size`; otherwise it is dropped. -/
def dataLineStep (max_message_size : Nat) (message_data : List Str)
    (line : Str) : List Str :=
  if (joinNL message_data).length < max_message_size then
    message_data ++ [line]
  else message_data

/-- The `message_data` accumulator after receiving the given DATA-mode
lines (none of which is the terminating `"."`), starting empty. -/
def runData (max_message_size : Nat) (lines : List Str) : List Str :=
  lines.foldl (dataLineStep max_message_size) []

/-- The `message_size` recorded in the `smtp_message` event emitted when
the terminating `"."` line arrives: `len("\n".join(message_data))`. -/
def message_size (max_message_size : Nat) (lines : List Str) : Nat :=
  (joinNL (runData max_message_size lines)).length

end SMTP


namespace Py

/-- Python `dict` assignment `d[k] = v` for string-keyed dicts modelled
as association lists: an existing key keeps its position and gets the
new value; a new key is appended (insertion order). -/
def dictInsert {α : Type} (d : List (Str × α)) (k : Str) (v : α) :
    List (Str × α) :=
  if d.any (fun kv => kv.1 == k) then
    d.map (fun kv => if kv.1 == k then (k, v) else kv)
  else d ++ [(k, v)]

/-- Python `d.get(k, dflt)`. -/
def dictGet {α : Type} (d : List (Str × α)) (k : Str) (dflt : α) : α :=
  match d.find? (fun kv => kv.1 == k) with
  | some kv => kv.2
  | none => dflt

/-- Python `d.values()` (insertion order). -/
def dictValues {α : Type} (d : List (Str × α)) : List α := d.map Prod.snd

end Py

namespace RE

/-!
A small regular-expression engine (Brzozowski derivatives) for the
pattern sets compiled by the honeypots with `re.compile(p, re.IGNORECASE)`.
`re.IGNORECASE` over the ASCII inputs of the claims is modelled by
matching patterns whose literals are lowercase against the lowercased
input.  `search` is Python `pattern.search`: does any substring match?
-/

/-- Regular expressions: empty word, empty language, a character class
given by its membership predicate, concatenation, alternation, star. -/
inductive Re where
  | eps : Re
  | nul : Re
  | cls : (Char → Bool) → Re
  | cat : Re → Re → Re
  | alt : Re → Re → Re
  | star : Re → Re

/-- Does the regex accept the empty word? -/
def nullable : Re → Bool
  | .eps => true
  | .nul => false
  | .cls _ => false
  | .cat a b => nullable a && nullable b
  | .alt a b => nullable a || nullable b
  | .star _ => true

/-- Smart concatenation (simplifies the unit and zero cases so that
derivatives stay small). -/
def mkCat (a b : Re) : Re :=
  match a, b with
  | .nul, _ => .nul
  | _, .nul => .nul
  | .eps, b => b
  | a, .eps => a
  | a, b => .cat a b

/-- Smart alternation. -/
def mkAlt (a b : Re) : Re :=
  match a, b with
  | .nul, b => b
  | a, .nul => a
  | a, b => .alt a b

/-- Brzozowski derivative of the regex by one character. -/
def deriv (c : Char) : Re → Re
  | .eps => .nul
  | .nul => .nul
  | .cls p => if p c then .eps else .nul
  | .cat a b =>
    if nullable a then mkAlt (mkCat (deriv c a) b) (deriv c b)
    else mkCat (deriv c a) b
  | .alt a b => mkAlt (deriv c a) (deriv c b)
  | .star a => mkCat (deriv c a) (.star a)

/-- Does some (possibly empty) prefix of the input match the regex? -/
def matchSomePre : Re → List Char → Bool
  | r, [] => nullable r
  | r, c :: cs => nullable r || matchSomePre (deriv c r) cs

/-- Python `pattern.search(s)`: does the regex match at some position? -/
def search (r : Re) (s : List Char) : Bool :=
  s.tails.any (fun t => matchSomePre r t)

/-- A single character. -/
def chr (c : Char) : Re := .cls (fun x => x = c)

/-- The single-quote character (`'`). -/
def sq : Char := Char.ofNat 39

/-- A literal string. -/
def lit (s : String) : Re := s.data.foldr (fun c r => mkCat (chr c) r) .eps

/-- Alternation of a list of regexes. -/
def alts : List Re → Re
  | [] => .nul
  | [r] => r
  | r :: s :: rs => .alt r (alts (s :: rs))

/-- Concatenation of a list of regexes. -/
def seqs : List Re → Re
  | [] => .eps
  | r :: rs => mkCat r (seqs rs)

/-- `r+`. -/
def plus (r : Re) : Re := .cat r (.star r)

/-- `.` — any character except a newline (no `re.DOTALL`). -/
def dot : Re := .cls (fun c => c ≠ '\n')

/-- `\s` (ASCII). -/
def wsC : Re := .cls Py.isSpace

/-- `\w` (ASCII). -/
def wordC : Re := .cls (fun c => c.isAlphanum || c = '_')

/-- `[^cs]`: any character not in the list. -/
def notIn (cs : List Char) : Re := .cls (fun c => !cs.contains c)

end RE

namespace HTTP

open Py (Str strOf)
open RE (lit chr seqs alts plus sq wsC wordC dot notIn)

/-- `SQL_INJECTION_PATTERNS` of the HTTP honeypot, in source order
(each pattern's regex source is given in the comment above it). -/
def sqlPatterns : List RE.Re :=
  [ -- r"(\%27)|(\')|(\-\-)|(\%23)|(#)"
    alts [lit "%27", chr sq, lit "--", lit "%23", lit "#"],
    -- r"((\%3D)|(=))[^\n]*((\%27)|(\')|(\-\-)|(\%3B)|(;))"
    seqs [alts [lit "%3d", lit "="], RE.Re.star (notIn ['\n']),
          alts [lit "%27", chr sq, lit "--", lit "%3b", lit ";"]],
    -- r"\w*((\%27)|(\'))((\%6F)|o|(\%4F))((\%72)|r|(\%52))"
    seqs [RE.Re.star wordC, alts [lit "%27", chr sq],
          alts [lit "%6f", lit "o", lit "%4f"],
          alts [lit "%72", lit "r", lit "%52"]],
    -- r"((\%27)|(\'))union"
    seqs [alts [lit "%27", chr sq], lit "union"],
    -- r"exec(\s|\+)+(s|x)p\w+"
    seqs [lit "exec", plus (alts [wsC, chr '+']), alts [chr 's', chr 'x'],
          chr 'p', plus wordC],
    -- r"UNION\s+SELECT"
    seqs [lit "union", plus wsC, lit "select"],
    -- r"SELECT\s+.*\s+FROM"
    seqs [lit "select", plus wsC, RE.Re.star dot, plus wsC, lit "from"],
    -- r"INSERT\s+INTO"
    seqs [lit "insert", plus wsC, lit "into"],
    -- r"DELETE\s+FROM"
    seqs [lit "delete", plus wsC, lit "from"],
    -- r"DROP\s+TABLE"
    seqs [lit "drop", plus wsC, lit "table"],
    -- r"UPDATE\s+.*\s+SET"
    seqs [lit "update", plus wsC, RE.Re.star dot, plus wsC, lit "set"],
    -- r"OR\s+1\s*=\s*1"
    seqs [lit "or", plus wsC, lit "1", RE.Re.star wsC, lit "=",
          RE.Re.star wsC, lit "1"],
    -- r"OR\s+'[^']*'\s*=\s*'[^']*'"
    seqs [lit "or", plus wsC, chr sq, RE.Re.star (notIn [sq]), chr sq,
          RE.Re.star wsC, chr '=', RE.Re.star wsC, chr sq,
          RE.Re.star (notIn [sq]), chr sq] ]

/-- `XSS_PATTERNS` of the HTTP honeypot, in source order. -/
def xssPatterns : List RE.Re :=
  [ -- r"<script[^>]*>"
    seqs [lit "<script", RE.Re.star (notIn ['>']), chr '>'],
    -- r"javascript:"
    lit "javascript:",
    -- r"onerror\s*="
    seqs [lit "onerror", RE.Re.star wsC, chr '='],
    -- r"onload\s*="
    seqs [lit "onload", RE.Re.star wsC, chr '='],
    -- r"onclick\s*="
    seqs [lit "onclick", RE.Re.star wsC, chr '='],
    -- r"<iframe"
    lit "<iframe",
    -- r"<img[^>]+onerror"
    seqs [lit "<img", plus (notIn ['>']), lit "onerror"] ]

/-- `PATH_TRAVERSAL_PATTERNS` of the HTTP honeypot, in source order. -/
def pathPatterns : List RE.Re :=
  [ -- r"\.\./"
    lit "../",
    -- r"\.\.\\"
    lit "..\\",
    -- r"/etc/passwd"
    lit "/etc/passwd",
    -- r"/etc/shadow"
    lit "/etc/shadow",
    -- r"c:\\windows"
    lit "c:\\windows",
    -- r"boot\.ini"
    lit "boot.ini" ]

/-- `SUSPICIOUS_PATHS` of the HTTP honeypot. -/
def SUSPICIOUS_PATHS : List Str :=
  [strOf "/admin", strOf "/wp-admin", strOf "/wp-login.php",
   strOf "/phpmyadmin", strOf "/phpMyAdmin", strOf "/.env",
   strOf "/config.php", strOf "/wp-config.php", strOf "/xmlrpc.php",
   strOf "/.git", strOf "/.svn", strOf "/backup", strOf "/db",
   strOf "/sql", strOf "/shell", strOf "/cmd", strOf "/console",
   strOf "/manager", strOf "/actuator", strOf "/api/v1/pods",
   strOf "/metrics"]

/-- `urlparse(path).path` for the origin-form request targets the
honeypot receives: the part of the target before the query (`?`) or
fragment (`#`). -/
def urlparsePath (p : Str) : Str :=
  p.takeWhile (fun c => c ≠ '?' && c ≠ '#')

/-- The string scanned by `detect_attack`:
`f"{path} {body} {' '.join(headers.values())}"`. -/
def full_input (path : Str) (headerValues : List Str) (body : Str) : Str :=
  path ++ strOf " " ++ body ++ strOf " " ++ Py.joinWith (strOf " ") headerValues

/-- Does some SQL-injection pattern match the `full_input` string? -/
def sqlHit (path : Str) (headers : List (Str × Str)) (body : Str) : Bool :=
  sqlPatterns.any
    (fun p => RE.search p (Py.lower (full_input path (Py.dictValues headers) body)))

/-- Does some XSS pattern match the `full_input` string? -/
def xssHit (path : Str) (headers : List (Str × Str)) (body : Str) : Bool :=
  xssPatterns.any
    (fun p => RE.search p (Py.lower (full_input path (Py.dictValues headers) body)))

/-- Does some path-traversal pattern match the raw path? -/
def travHit (path : Str) : Bool :=
  pathPatterns.any (fun p => RE.search p (Py.lower path))

/-- Is some suspicious path a substring of the lowercased URL path? -/
def reconHit (path : Str) : Bool :=
  SUSPICIOUS_PATHS.any
    (fun s => Py.containsSub (Py.lower s) (Py.lower (urlparsePath path)))

/-- `HTTPHoneypot.detect_attack`: check SQL injection, then XSS, then
path traversal, then the suspicious-path list; return the first matching
tag, or `""`. -/
def detect_attack (path : Str) (headers : List (Str × Str)) (body : Str) :
    Str :=
  if sqlHit path headers body then strOf "sql_injection"
  else if xssHit path headers body then strOf "xss"
  else if travHit path then strOf "path_traversal"
  else if reconHit path then strOf "reconnaissance"
  else []

/-- The classifier categories with their match outcomes, in the order
`detect_attack` checks them. -/
def categoryHits (path : Str) (headers : List (Str × Str)) (body : Str) :
    List (Str × Bool) :=
  [(strOf "sql_injection", sqlHit path headers body),
   (strOf "xss", xssHit path headers body),
   (strOf "path_traversal", travHit path),
   (strOf "reconnaissance", reconHit path)]

/-- First-match-wins reading of the classification (the spec's wording):
the first category in order whose pattern set matches, or the empty tag. -/
def firstMatchingCategory (path : Str) (headers : List (Str × Str))
    (body : Str) : Str :=
  match (categoryHits path headers body).find? Prod.snd with
  | some x => x.1
  | none => []

end HTTP

namespace HTTP

open Py (Str strOf)

/-- Header scan of `HTTPHoneypot.parse_request` over `lines[1:]`: stop
at the first blank line recording `body_start = i + 1`; a line
containing `": "` is split once and inserted into the headers dict
(later duplicates win); `body_start` stays 0 when no blank line occurs. -/
def scanHeaders : List Str → Nat → List (Str × Str) → (List (Str × Str) × Nat)
  | [], _, hs => (hs, 0)
  | l :: rest, i, hs =>
    if l.isEmpty then (hs, i + 1)
    else
      match Py.splitOnce ':' (strOf " ") l with
      | some (k, v) => scanHeaders rest (i + 1) (Py.dictInsert hs k v)
      | none => scanHeaders rest (i + 1) hs

/-- `HTTPHoneypot.parse_request`: split on CRLF; the first line is
`METHOD SP TARGET ...` (fewer than two space-separated tokens → `none`);
then headers until the first blank line; the remaining lines re-joined
with CRLF are the body. -/
def parse_request (data : Str) :
    Option (Str × Str × List (Str × Str) × Str) :=
  let lines := Py.pySplit '\r' (strOf "\n") data
  match lines with
  | [] => none
  | first :: rest =>
    let request_line := Py.pySplit ' ' [] first
    if request_line.length < 2 then none
    else
      let method := request_line.getD 0 []
      let path := request_line.getD 1 []
      let hb := scanHeaders rest 1 []
      let body :=
        if hb.2 < lines.length then Py.joinWith (strOf "\r\n") (lines.drop hb.2)
        else []
      some (method, path, hb.1, body)

/-- Decimal digits of a natural number. -/
def natToStr (n : Nat) : Str := (toString n).data

/-- `HTTPHoneypot._build_response`: status line, `Content-Type`
(`application/json` when the body begins with a brace, else
`text/html`), `Content-Length`, fixed `Server` and `Connection: close`
headers, blank line, body. -/
def build_response (status_code : Nat) (status_text : Str) (body : Str) :
    Str :=
  let content_type :=
    if (strOf "\x7b").isPrefixOf body then strOf "application/json"
    else strOf "text/html"
  strOf "HTTP/1.1 " ++ natToStr status_code ++ strOf " " ++ status_text ++
    strOf "\r\n" ++ strOf "Content-Type: " ++ content_type ++ strOf "\r\n" ++
    strOf "Content-Length: " ++ natToStr body.length ++ strOf "\r\n" ++
    strOf "Server: Apache/2.4.41 (Ubuntu)\r\n" ++
    strOf "Connection: close\r\n" ++ strOf "\r\n" ++ body

/-- `HTTPHoneypot._get_index_page`. -/
def index_page : Str :=
  strOf "<!DOCTYPE html>\n<html><head><title>Welcome</title></head>\n<body><h1>Welcome to our service</h1><p>Please log in to continue.</p></body></html>"

/-- `HTTPHoneypot._get_login_page`. -/
def login_page : Str :=
  strOf "<!DOCTYPE html>\n<html><head><title>Admin Login</title></head>\n<body><h1>Admin Login</h1>\n<form method=\"post\"><input name=\"user\" placeholder=\"Username\"><input name=\"pass\" type=\"password\"><button>Login</button></form></body></html>"

/-- `HTTPHoneypot._get_wordpress_admin`. -/
def wordpress_admin : Str :=
  strOf "<!DOCTYPE html>\n<html><head><title>WordPress &rsaquo; Log In</title></head>\n<body class=\"login\"><div id=\"login\">\n<h1><a href=\"https://wordpress.org/\">WordPress</a></h1>\n<form method=\"post\"><p><label>Username<input name=\"log\" type=\"text\"></label></p>\n<p><label>Password<input name=\"pwd\" type=\"password\"></label></p>\n<p><input type=\"submit\" value=\"Log In\"></p></form></div></body></html>"

/-- `HTTPHoneypot._get_phpmyadmin_page`. -/
def phpmyadmin_page : Str :=
  strOf "<!DOCTYPE html>\n<html><head><title>phpMyAdmin</title></head>\n<body><div id=\"pma_header\"><h1>phpMyAdmin</h1></div>\n<form method=\"post\"><input name=\"pma_username\" placeholder=\"Username\">\n<input name=\"pma_password\" type=\"password\"><button>Go</button></form></body></html>"

/-- `HTTPHoneypot._load_fake_services`: the fake-service response table,
in insertion order. -/
def fake_services : List (Str × Str) :=
  [(strOf "/", build_response 200 (strOf "OK") index_page),
   (strOf "/health",
    build_response 200 (strOf "OK") (strOf "\x7b\"status\": \"healthy\"\x7d")),
   (strOf "/ready",
    build_response 200 (strOf "OK") (strOf "\x7b\"ready\": true\x7d")),
   (strOf "/robots.txt",
    build_response 200 (strOf "OK")
      (strOf "User-agent: *\nDisallow: /admin\nDisallow: /api")),
   (strOf "/admin", build_response 401 (strOf "Unauthorized") login_page),
   (strOf "/wp-admin", build_response 200 (strOf "OK") wordpress_admin),
   (strOf "/phpmyadmin", build_response 200 (strOf "OK") phpmyadmin_page),
   (strOf "/api",
    build_response 200 (strOf "OK")
      (strOf "\x7b\"version\": \"1.0\", \"endpoints\": [\"/users\", \"/products\"]\x7d"))]

/-- The default 404 response of `HTTPHoneypot.get_response`. -/
def default_404 : Str :=
  build_response 404 (strOf "Not Found")
    (strOf "<html><body><h1>404 Not Found</h1></body></html>")

/-- `HTTPHoneypot.get_response`: exact match in the fake-service table,
else the first key (in table order) that is a proper prefix of the URL
path and is not `"/"`, else the default 404 response.  `method` and
`headers` are accepted and unused, as in the source. -/
def get_response (path : Str) (_method : Str)
    (_headers : List (Str × Str)) : Str :=
  let parsed_path := urlparsePath path
  match fake_services.find? (fun kv => kv.1 == parsed_path) with
  | some kv => kv.2
  | none =>
    match fake_services.find?
        (fun kv => kv.1.isPrefixOf parsed_path && !(kv.1 == strOf "/")) with
    | some kv => kv.2
    | none => default_404

/-- The `http_request` event record built in
`HTTPHoneypot.handle_connection` (per-session fields such as timestamp,
source address and session id are independent of the claims and omitted). -/
structure HTTPEvent where
  method : Str
  path : Str
  headers : List (Str × Str)
  body : Str
  user_agent : Str
  attack_type : Str
deriving DecidableEq

/-- One connection of `HTTPHoneypot.handle_connection`, from the raw
request data to the emitted `http_request` event and the response bytes:
a request that fails to parse emits nothing and gets no response;
otherwise exactly one event is emitted (body truncated to 1000
characters) and the fake-service response is written. -/
def handle_connection (data : Str) : Option (HTTPEvent × Str) :=
  match parse_request data with
  | none => none
  | some (method, path, headers, body) =>
    let attack_type := detect_attack path headers body
    some
      ({ method := method, path := path, headers := headers,
         body := body.take 1000,
         user_agent := Py.dictGet headers (strOf "User-Agent") [],
         attack_type := attack_type },
       get_response path method headers)

end HTTP

namespace MySQL

open Py (Str strOf)

/-- `struct.pack("<H", n)`: little-endian uint16. -/
def u16le (n : Nat) : List Nat := [n % 256, n / 256 % 256]

/-- `struct.pack("<I", n)`: little-endian uint32. -/
def u32le (n : Nat) : List Nat :=
  [n % 256, n / 256 % 256, n / 2 ^ 16 % 256, n / 2 ^ 24 % 256]

/-- `struct.pack("<I", n)[:3]`: the 3-byte MySQL packet length. -/
def u24le (n : Nat) : List Nat := [n % 256, n / 256 % 256, n / 2 ^ 16 % 256]

/-- Bytes of an ASCII literal. -/
def strBytes (s : String) : List Nat := s.data.map Char.toNat

/-- Payload of `MySQLHoneypot.build_ok_packet`: OK header `0x00`,
affected rows 0, last insert id 0, status flags `0x0002`, warnings 0. -/
def ok_payload : List Nat := [0x00] ++ [0] ++ [0] ++ u16le 0x0002 ++ u16le 0

/-- `MySQLHoneypot.build_ok_packet`: 3-byte length, sequence byte
`0x02`, payload. -/
def build_ok_packet : List Nat := u24le ok_payload.length ++ [0x02] ++ ok_payload

/-- Column-count packet of `build_empty_result` (1 column, seq `0x01`). -/
def col_count_packet : List Nat := [0x01, 0x00, 0x00, 0x01, 0x01]

/-- Column-definition payload of `build_empty_result`: catalog `def`,
empty schema/table/org_table, column name `result`, fixed-field block
with charset 33, column length 255, type `0xfd` (varchar), flags 0,
decimals 0, filler. -/
def col_def_payload : List Nat :=
  [3] ++ strBytes "def" ++ [0] ++ [0] ++ [0] ++ [6] ++ strBytes "result" ++
    [0] ++ [0x0c] ++ u16le 33 ++ u32le 255 ++ [0xfd] ++ u16le 0 ++ [0] ++
    [0, 0]

/-- First EOF packet of `build_empty_result` (seq `0x03`). -/
def eof_packet1 : List Nat := [0x05, 0x00, 0x00, 0x03, 0xfe, 0x00, 0x00, 0x02, 0x00]

/-- Second EOF packet of `build_empty_result` (seq `0x04`). -/
def eof_packet2 : List Nat := [0x05, 0x00, 0x00, 0x04, 0xfe, 0x00, 0x00, 0x02, 0x00]

/-- `MySQLHoneypot.build_empty_result`: column count, column definition
(seq `0x02`), and two EOF packets. -/
def build_empty_result : List Nat :=
  col_count_packet ++
    (u24le col_def_payload.length ++ [0x02] ++ col_def_payload) ++
    eof_packet1 ++ eof_packet2

/-- `MySQLHoneypot.build_query_response`: the canned empty result set
when `query.lower().strip()` starts with `select`, else the OK packet. -/
def build_query_response (query : Str) : List Nat :=
  if (strOf "select").isPrefixOf (Py.strip (Py.lower query)) then
    build_empty_result
  else build_ok_packet

end MySQL

namespace Json

open Py (Str strOf)

/-- JSON values as produced by `json.loads`.  Numbers keep their raw
matched text (the claims never compute with them); objects are
association lists built with Python-dict semantics. -/
inductive JVal where
  | null : JVal
  | bool (b : Bool) : JVal
  | num (raw : Str) : JVal
  | str (s : Str) : JVal
  | arr (xs : List JVal) : JVal
  | obj (kvs : List (Str × JVal)) : JVal

/-- JSON insignificant whitespace. -/
def jsonWs (c : Char) : Bool := c = ' ' || c = '\t' || c = '\n' || c = '\r'

/-- Skip insignificant whitespace. -/
def skipWs (s : Str) : Str := s.dropWhile jsonWs

/-- The opening brace character. -/
def obr : Char := Char.ofNat 123

/-- The closing brace character. -/
def cbr : Char := Char.ofNat 125

/-- Hexadecimal digit value. -/
def hexVal (c : Char) : Option Nat :=
  if c.isDigit then some (c.toNat - 48)
  else
    let l := c.toLower
    if 'a' ≤ l && l ≤ 'f' then some (l.toNat - 87) else none

/-- Parse a JSON string body (after the opening quote) up to the closing
quote, decoding the escapes `\" \\ \/ \b \f \n \r \t \uXXXX`; raw
control characters are rejected (strict mode).  Surrogate-pair
combination is not modelled (no claim involves non-ASCII text). -/
def parseStr : Nat → Str → Option (Str × Str)
  | 0, _ => none
  | fuel + 1, s =>
    match s with
    | [] => none
    | c :: rest =>
      if c = '"' then some ([], rest)
      else if c = '\\' then
        match rest with
        | [] => none
        | e :: rest2 =>
          let cont := fun (d : Char) (r : Str) =>
            match parseStr fuel r with
            | some (t, r2) => some (d :: t, r2)
            | none => none
          if e = '"' || e = '\\' || e = '/' then cont e rest2
          else if e = 'b' then cont (Char.ofNat 8) rest2
          else if e = 'f' then cont (Char.ofNat 12) rest2
          else if e = 'n' then cont '\n' rest2
          else if e = 'r' then cont '\r' rest2
          else if e = 't' then cont '\t' rest2
          else if e = 'u' then
            match rest2 with
            | h1 :: h2 :: h3 :: h4 :: rest3 =>
              match hexVal h1, hexVal h2, hexVal h3, hexVal h4 with
              | some a, some b, some cg, some d =>
                cont (Char.ofNat (a * 4096 + b * 256 + cg * 16 + d)) rest3
              | _, _, _, _ => none
            | _ => none
          else none
      else if c.toNat < 32 then none
      else
        match parseStr fuel rest with
        | some (t, r2) => some (c :: t, r2)
        | none => none

/-- Optional JSON fraction part `.digits`. -/
def parseFrac (s : Str) : Option (Str × Str) :=
  match s with
  | [] => some ([], [])
  | c :: r =>
    if c = '.' then
      let ds := r.takeWhile Char.isDigit
      if ds.isEmpty then none else some (c :: ds, r.drop ds.length)
    else some ([], s)

/-- Optional JSON exponent part `[eE][+-]?digits`. -/
def parseExp (s : Str) : Option (Str × Str) :=
  match s with
  | [] => some ([], [])
  | c :: r =>
    if c = 'e' || c = 'E' then
      let sr : Str × Str :=
        match r with
        | d :: r2 => if d = '+' || d = '-' then ([d], r2) else ([], r)
        | [] => ([], [])
      let ds := sr.2.takeWhile Char.isDigit
      if ds.isEmpty then none
      else some (c :: sr.1 ++ ds, sr.2.drop ds.length)
    else some ([], s)

/-- JSON number grammar `-?(0|[1-9][0-9]*)(.digits)?([eE][+-]?digits)?`,
returning the raw matched text and the rest of the input. -/
def parseNum (s : Str) : Option (Str × Str) :=
  let sr : Str × Str :=
    match s with
    | c :: r => if c = '-' then ([c], r) else ([], s)
    | [] => ([], [])
  match sr.2 with
  | [] => none
  | c :: r =>
    if c = '0' then
      match parseFrac r with
      | some (f, r2) =>
        match parseExp r2 with
        | some (e, r3) => some (sr.1 ++ [c] ++ f ++ e, r3)
        | none => none
      | none => none
    else if c.isDigit then
      let ds := r.takeWhile Char.isDigit
      let r1 := r.drop ds.length
      match parseFrac r1 with
      | some (f, r2) =>
        match parseExp r2 with
        | some (e, r3) => some (sr.1 ++ c :: ds ++ f ++ e, r3)
        | none => none
      | none => none
    else none

/-- Parser modes: a single value, the items of an array after the first
`[`, or the members of an object after the first key is known to start. -/
inductive PMode where
  | value : PMode
  | arrItems : List JVal → PMode
  | objItems : List (Str × JVal) → PMode

/-- Parser results. -/
inductive PRes where
  | val : JVal → PRes
  | items : List JVal → PRes
  | fields : List (Str × JVal) → PRes

/-- Recursive-descent JSON parser; structural recursion on fuel (every
recursive call decreases it, and parsing consumes input, so fuel
`2 * length + 4` suffices for every input). -/
def parseF : Nat → PMode → Str → Option (PRes × Str)
  | 0, _, _ => none
  | fuel + 1, .value, s =>
    let s := skipWs s
    match s with
    | [] => none
    | c :: rest =>
      if c = obr then
        let s2 := skipWs rest
        match s2 with
        | c2 :: rest2 =>
          if c2 = cbr then some (.val (.obj []), rest2)
          else
            match parseF fuel (.objItems []) s2 with
            | some (.fields kvs, r) => some (.val (.obj kvs), r)
            | _ => none
        | [] => none
      else if c = '[' then
        let s2 := skipWs rest
        match s2 with
        | c2 :: rest2 =>
          if c2 = ']' then some (.val (.arr []), rest2)
          else
            match parseF fuel (.arrItems []) s2 with
            | some (.items vs, r) => some (.val (.arr vs), r)
            | _ => none
        | [] => none
      else if c = '"' then
        match parseStr (rest.length + 1) rest with
        | some (t, r) => some (.val (.str t), r)
        | none => none
      else if c = 't' then
        if (strOf "rue").isPrefixOf rest then
          some (.val (.bool true), rest.drop 3)
        else none
      else if c = 'f' then
        if (strOf "alse").isPrefixOf rest then
          some (.val (.bool false), rest.drop 4)
        else none
      else if c = 'n' then
        if (strOf "ull").isPrefixOf rest then some (.val .null, rest.drop 3)
        else none
      else
        match parseNum (c :: rest) with
        | some (raw, r) => some (.val (.num raw), r)
        | none => none
  | fuel + 1, .arrItems acc, s =>
    match parseF fuel .value s with
    | some (.val v, r) =>
      let r2 := skipWs r
      match r2 with
      | c :: rest =>
        if c = ',' then parseF fuel (.arrItems (v :: acc)) rest
        else if c = ']' then some (.items (v :: acc).reverse, rest)
        else none
      | [] => none
    | _ => none
  | fuel + 1, .objItems acc, s =>
    let s := skipWs s
    match s with
    | [] => none
    | c :: rest =>
      if c = '"' then
        match parseStr (rest.length + 1) rest with
        | some (k, r) =>
          let r2 := skipWs r
          match r2 with
          | c2 :: rest2 =>
            if c2 = ':' then
              match parseF fuel .value rest2 with
              | some (.val v, r3) =>
                let r4 := skipWs r3
                match r4 with
                | c3 :: rest3 =>
                  if c3 = ',' then
                    parseF fuel (.objItems (Py.dictInsert acc k v)) rest3
                  else if c3 = cbr then
                    some (.fields (Py.dictInsert acc k v), rest3)
                  else none
                | [] => none
              | _ => none
            else none
          | [] => none
        | none => none
      else none

/-- `json.loads`: parse one value and require only whitespace after it.
(The non-standard `NaN`/`Infinity` extensions of the Python parser are
not modelled; theorems over objects quantify within this grammar.) -/
def jsonLoads (s : Str) : Option JVal :=
  match parseF (2 * s.length + 4) .value s with
  | some (.val v, rest) => if (skipWs rest).isEmpty then some v else none
  | _ => none

end Json

namespace API

open Py (Str strOf)
open Json (JVal jsonLoads)

/-- Digits-with-underscores tail of Python `int()` parsing: after an
accepted digit, either another digit or a single underscore followed by
a digit may occur. -/
def pyDigitsAux : Nat → Str → Option Nat
  | acc, [] => some acc
  | acc, c :: rest =>
    if c.isDigit then pyDigitsAux (acc * 10 + (c.toNat - 48)) rest
    else if c = '_' then
      match rest with
      | d :: rest2 =>
        if d.isDigit then pyDigitsAux (acc * 10 + (d.toNat - 48)) rest2
        else none
      | [] => none
    else none

/-- Unsigned digit string of Python `int()`: nonempty, underscores only
between digits. -/
def pyIntDigits : Str → Option Nat
  | [] => none
  | c :: rest => if c.isDigit then pyDigitsAux (c.toNat - 48) rest else none

/-- Python `int(s)` (ASCII): surrounding whitespace stripped, optional
sign, decimal digits with optional single underscores between digits;
`none` models the `ValueError`. -/
def pyInt (s : Str) : Option Int :=
  let t := Py.strip s
  match t with
  | [] => none
  | c :: r =>
    if c = '+' then (pyIntDigits r).map (fun n => (n : Int))
    else if c = '-' then (pyIntDigits r).map (fun n => -(n : Int))
    else (pyIntDigits t).map (fun n => (n : Int))

/-- A row of the fake `PRODUCTS` table (the float price is kept as its
decimal source literal; no claim computes with it). -/
structure Product where
  id : Int
  name : Str
  price : Str
  stock : Nat

/-- The fake product database `PRODUCTS`. -/
def PRODUCTS : List Product :=
  [⟨1, strOf "Laptop Pro", strOf "999.99", 50⟩,
   ⟨2, strOf "Smartphone X", strOf "699.99", 100⟩,
   ⟨3, strOf "Tablet Air", strOf "499.99", 75⟩,
   ⟨4, strOf "Wireless Earbuds", strOf "149.99", 200⟩]

/-- A product dict as serialized by `send_json`. -/
def productJson (p : Product) : JVal :=
  .obj [(strOf "id", .num (toString p.id).data),
        (strOf "name", .str p.name),
        (strOf "price", .num p.price),
        (strOf "stock", .num (toString p.stock).data)]

/-- The result of one handler call: `send_json(data, status)` with a
literal payload, or the `except`-branch reply whose body holds the
interpreter-generated exception text. -/
inductive ApiResult where
  | json : Nat → JVal → ApiResult
  | errText : Nat → ApiResult

/-- `self.path.split("/")[-1]`. -/
def lastSegment (path : Str) : Str := (Py.pySplit '/' [] path).getLastD []

/-- The `/api/config` honeypot payload. -/
def config_body : JVal :=
  .obj [(strOf "db_host", .str (strOf "db.internal.local")),
        (strOf "db_user", .str (strOf "app_user")),
        (strOf "db_name", .str (strOf "ecommerce")),
        (strOf "api_key", .str (strOf "sk-fake-api-key-12345"))]

/-- `APIHandler.do_GET`, as a function of the parsed URL path. -/
def do_GET (path : Str) : ApiResult :=
  if path == strOf "/api/products" then
    .json 200 (.obj [(strOf "products", .arr (PRODUCTS.map productJson))])
  else if (strOf "/api/products/").isPrefixOf path then
    match pyInt (lastSegment path) with
    | none =>
      .json 400 (.obj [(strOf "error", .str (strOf "Invalid product ID"))])
    | some n =>
      match PRODUCTS.find? (fun p => p.id == n) with
      | some p => .json 200 (productJson p)
      | none =>
        .json 404 (.obj [(strOf "error", .str (strOf "Product not found"))])
  else if path == strOf "/api/health" then
    .json 200 (.obj [(strOf "status", .str (strOf "healthy"))])
  else if path == strOf "/api/config" then .json 200 config_body
  else .json 404 (.obj [(strOf "error", .str (strOf "Not found"))])

/-- Form-data fallback of the `/api/login` handler: split the body on
`&`; each chunk containing `=` is split once into key and value. -/
def formParse (body : Str) : List (Str × JVal) :=
  (Py.pySplit '&' [] body).foldl
    (fun d pair =>
      match Py.splitOnce '=' [] pair with
      | some (k, v) => Py.dictInsert d k (.str v)
      | none => d)
    []

/-- The 401 body of `/api/login`. -/
def login_failed_body : JVal :=
  .obj [(strOf "error", .str (strOf "Invalid credentials"))]

/-- The 200 body of `/api/search`. -/
def search_results_body : JVal := .obj [(strOf "results", .arr [])]

/-- `APIHandler.do_POST` on `/api/login`: returns the handler reply and
the username recorded in the `login_attempt` warning (`none` when the
handler raised before logging).  A body starting with a brace is given
to `json.loads` (failure raises → caught → status 400); a parse result
that is not a dict would raise at `data.get` (also 400).  When the
parsed dict is empty and the body nonempty, the form-data fallback runs.
Then the warning is logged and the reply is always 401. -/
def do_login (body : Str) : ApiResult × Option JVal :=
  match (if (strOf "\x7b").isPrefixOf body then jsonLoads body
         else some (.obj [])) with
  | some (.obj kvs) =>
    let data := if kvs.isEmpty && !body.isEmpty then formParse body else kvs
    (.json 401 login_failed_body,
     some (Py.dictGet data (strOf "username") (.str [])))
  | some _ => (.errText 400, none)
  | none => (.errText 400, none)

/-- The `/api/search` injection substring set (used only for logging). -/
def search_sql_patterns : List Str :=
  [strOf "union", strOf "select", strOf "drop", strOf "delete",
   strOf "--", strOf "or 1=1"]

/-- Does the lowercased query contain one of the logged substrings?
(`any(p in query.lower() for p in sql_patterns)`). -/
def search_flagged (q : Str) : Bool :=
  search_sql_patterns.any (fun p => Py.containsSub p (Py.lower q))

/-- `APIHandler.do_POST` on `/api/search`: an empty body means
`data = {}`; otherwise the body must parse as JSON (failure → 400).  A
non-dict parse raises at `data.get` (400); a non-string `q` raises at
`query[:200]` or `query.lower()` (400).  Otherwise the injection check
only logs, and the reply is 200 with an empty result list. -/
def do_search (body : Str) : ApiResult :=
  match (if body.isEmpty then some (.obj []) else jsonLoads body) with
  | some (.obj kvs) =>
    match Py.dictGet kvs (strOf "q") (.str []) with
    | .str _ => .json 200 search_results_body
    | _ => .errText 400
  | some _ => .errText 400
  | none => .errText 400

end API

section Theorems

open Py (Str strOf)

/-- When the attempt counter has already reached `max_attempts`, the
authentication loop exits immediately. -/
theorem SSH.loginAttempts_of_le (n : Nat) (l : List Str)
    (h : SSH.max_attempts ≤ n) : SSH.loginAttempts n l = n := by
  cases l with
  | nil => rfl
  | cons d rest =>
    unfold SSH.loginAttempts
    have : ¬ n < SSH.max_attempts := by omega
    simp [this]

/-- The loop counter never exceeds `max_attempts`. -/
theorem SSH.loginAttempts_le (l : List Str) :
    ∀ n, n ≤ SSH.max_attempts → SSH.loginAttempts n l ≤ SSH.max_attempts := by
  induction l with
  | nil => intro n hn; simpa [SSH.loginAttempts] using hn
  | cons d rest ih =>
    intro n hn
    unfold SSH.loginAttempts
    by_cases h : n < SSH.max_attempts
    · simp only [h, if_true]
      cases SSH.parse_auth_packet d with
      | some _ => exact ih (n + 1) (by omega)
      | none => exact ih n hn
    · simpa [h] using hn

/-- A buffer that fails credential extraction is a no-op for the
authentication loop: the session keeps reading. -/
theorem SSH.loginAttempts_skip (bad : Str)
    (hbad : SSH.parse_auth_packet bad = none) :
    ∀ (pre : List Str) (n : Nat) (post : List Str),
      SSH.loginAttempts n (pre ++ bad :: post) =
        SSH.loginAttempts n (pre ++ post) := by
  intro pre
  induction pre with
  | nil =>
    intro n post
    by_cases h : n < SSH.max_attempts
    · simp [SSH.loginAttempts, h, hbad]
    · rw [List.nil_append, List.nil_append,
        SSH.loginAttempts_of_le n _ (by omega),
        SSH.loginAttempts_of_le n _ (by omega)]
  | cons d pre ih =>
    intro n post
    by_cases h : n < SSH.max_attempts
    · unfold SSH.loginAttempts
      simp only [List.cons_append, h, if_true]
      cases SSH.parse_auth_packet d with
      | some _ => exact ih (n + 1) post
      | none => exact ih n post
    · rw [List.cons_append, List.cons_append,
        SSH.loginAttempts_of_le n _ (by omega),
        SSH.loginAttempts_of_le n _ (by omega)]


/-- C1 counterexample.  The claim also asserts a close-and-ban on any
parse failure after the first recovered attempt; in the code a parse
failure neither bans nor ends the session.  Concretely: the first read
`"\x00user\x00pass\x00"` is recovered as an attempt, the second read
`"!!!"` fails extraction, yet the session records no ban (and a third
read is still processed). -/
theorem C1_counterexample :
    SSH.parse_auth_packet (strOf "\x00user\x00pass\x00") =
      some (strOf "user", strOf "pass") ∧
    SSH.parse_auth_packet (strOf "!!!") = none ∧
    SSH.simulate_handshake [strOf "\x00user\x00pass\x00", strOf "!!!"] = 1 ∧
    SSH.banTableAfter SSH.emptyBanTable
      [strOf "\x00user\x00pass\x00", strOf "!!!"] (strOf "10.0.0.7") 1000 300
      (strOf "10.0.0.7") = none ∧
    SSH.simulate_handshake
      [strOf "\x00user\x00pass\x00", strOf "!!!",
       strOf "\x00user\x00pass\x00"] = 2 := by
  refine ⟨by decide, by decide, by decide, ?_, by decide⟩
  decide

/-- C1 (amended): the connection is closed and
`ban(source_ip, banTTL)` is called — recording the source IP with
expiry `now + banTTL` — exactly when three login attempts were
recovered; a parse failure is a no-op (the loop keeps reading and no
ban results from it), and the attempt count never exceeds three. -/
theorem C1_amended (banned : SSH.BanTable) (reads : List Str) (ip : Str)
    (now ban_time : Nat) :
    (SSH.simulate_handshake reads = 3 →
      SSH.banTableAfter banned reads ip now ban_time ip = some (now + ban_time)) ∧
    (SSH.simulate_handshake reads < 3 →
      SSH.banTableAfter banned reads ip now ban_time = banned) ∧
    SSH.simulate_handshake reads ≤ 3 ∧
    (∀ (pre post : List Str) (bad : Str),
      SSH.parse_auth_packet bad = none →
      SSH.simulate_handshake (pre ++ bad :: post) =
        SSH.simulate_handshake (pre ++ post)) := by
  refine ⟨?_, ?_, ?_, ?_⟩
  · intro h
    unfold SSH.banTableAfter
    rw [h]
    simp [SSH.ban_ip, SSH.max_attempts]
  · intro h
    unfold SSH.banTableAfter
    rw [if_neg]
    simpa [SSH.max_attempts] using h
  · exact SSH.loginAttempts_le reads 0 (by omega)
  · intro pre post bad hbad
    exact SSH.loginAttempts_skip bad hbad pre 0 post

/-- C1 witness: a session with three recovered attempts is banned with
expiry `now + banTTL`, and a failing buffer is skipped, at concrete
inputs. -/
theorem C1_witness :
    SSH.banTableAfter SSH.emptyBanTable
      [strOf "\x00user\x00pass\x00", strOf "\x00user\x00pass\x00",
       strOf "\x00user\x00pass\x00"] (strOf "10.0.0.7") 1000 300
      (strOf "10.0.0.7") = some (1000 + 300) ∧
    SSH.simulate_handshake ([strOf "\x00user\x00pass\x00"] ++
        strOf "!!!" :: [strOf "\x00user\x00pass\x00"]) =
      SSH.simulate_handshake ([strOf "\x00user\x00pass\x00"] ++
        [strOf "\x00user\x00pass\x00"]) :=
  ⟨(C1_amended SSH.emptyBanTable _ _ 1000 300).1 (by decide),
   (C1_amended SSH.emptyBanTable
      [strOf "\x00user\x00pass\x00", strOf "!!!",
       strOf "\x00user\x00pass\x00"] (strOf "10.0.0.7") 1000 300).2.2.2
     [strOf "\x00user\x00pass\x00"] [strOf "\x00user\x00pass\x00"]
     (strOf "!!!") (by decide)⟩

/-- The KEXINIT payload is 213 bytes long for any 16-byte cookie. -/
theorem SSH.kexinit_payload_length (cookie : List Nat)
    (h : cookie.length = 16) : (SSH.kexinit_payload cookie).length = 213 := by
  have l1 : (SSH.nameListBytes SSH.kex_algorithms).length = 40 := rfl
  have l2 : (SSH.nameListBytes SSH.host_key_algorithms).length = 23 := rfl
  have l3 : (SSH.nameListBytes SSH.encryption).length = 25 := rfl
  have l4 : (SSH.nameListBytes SSH.mac).length = 27 := rfl
  have l5 : (SSH.nameListBytes SSH.compression).length = 8 := rfl
  have l6 : (SSH.nameListBytes SSH.languages).length = 4 := rfl
  simp [SSH.kexinit_payload, List.length_append, h, l1, l2, l3, l4, l5, l6]

/-- C6: for both packets the honeypot builds — KEXINIT and
USERAUTH_FAILURE — the chosen `padding_length` is the smallest value
`≥ 4` making `(4 + packet_length) % 8 = 0`, where `packet_length`
(the value written in the big-endian uint32 length field) counts the
padding-length byte, the payload and the padding.  The packets are laid
out as length field, padding byte, payload, padding, with payload sizes
213 (KEXINIT, for the 16-byte cookie) and 23 (USERAUTH_FAILURE). -/
theorem C6_padding (urandom : Nat → List Nat)
    (h : ∀ n, (urandom n).length = n) :
    (SSH.kexinit_payload (urandom 16)).length = 213 ∧
    SSH.build_kexinit urandom =
      SSH.u32be (213 + 1 + SSH.padding_len 214) ++ [SSH.padding_len 214] ++
        SSH.kexinit_payload (urandom 16) ++ urandom (SSH.padding_len 214) ∧
    SSH.sshPaddingSpec 213 (SSH.padding_len 214) ∧
    SSH.auth_failure_payload.length = 23 ∧
    SSH.build_auth_failure urandom =
      SSH.u32be (23 + 1 + SSH.padding_len 24) ++ [SSH.padding_len 24] ++
        SSH.auth_failure_payload ++ urandom (SSH.padding_len 24) ∧
    SSH.sshPaddingSpec 23 (SSH.padding_len 24) := by
  have hk : (SSH.kexinit_payload (urandom 16)).length = 213 :=
    SSH.kexinit_payload_length _ (h 16)
  refine ⟨hk, ?_, ⟨by decide, by decide, ?_⟩, by decide, ?_,
    ⟨by decide, by decide, ?_⟩⟩
  · simp only [SSH.build_kexinit, hk]
  · intro q hq hm
    have : SSH.padding_len 214 = 6 := by decide
    omega
  · unfold SSH.build_auth_failure
    rfl
  · intro q hq hm
    have : SSH.padding_len 24 = 4 := by decide
    omega

/-- C6 witness: the padding properties instantiated at the all-zero
randomness source. -/
theorem C6_padding_witness :
    (∀ n, ((fun k => List.replicate k 0) n : List Nat).length = n) ∧
    ((SSH.kexinit_payload ((fun k => List.replicate k 0) 16)).length = 213 ∧
     SSH.build_kexinit (fun k => List.replicate k 0) =
       SSH.u32be (213 + 1 + SSH.padding_len 214) ++ [SSH.padding_len 214] ++
         SSH.kexinit_payload ((fun k => List.replicate k 0) 16) ++
         (fun k => List.replicate k 0) (SSH.padding_len 214) ∧
     SSH.sshPaddingSpec 213 (SSH.padding_len 214) ∧
     SSH.auth_failure_payload.length = 23 ∧
     SSH.build_auth_failure (fun k => List.replicate k 0) =
       SSH.u32be (23 + 1 + SSH.padding_len 24) ++ [SSH.padding_len 24] ++
         SSH.auth_failure_payload ++
         (fun k => List.replicate k 0) (SSH.padding_len 24) ∧
     SSH.sshPaddingSpec 23 (SSH.padding_len 24)) :=
  ⟨fun n => List.length_replicate n 0,
   C6_padding (fun k => List.replicate k 0) (fun n => List.length_replicate n 0)⟩

/-- Joining after appending one element. -/
theorem Py.joinWith_snoc (sep : Str) (acc : List Str) (l : Str) :
    Py.joinWith sep (acc ++ [l]) =
      if acc.isEmpty then l else Py.joinWith sep acc ++ sep ++ l := by
  induction acc with
  | nil => simp [Py.joinWith]
  | cons x acc ih =>
    cases acc with
    | nil => simp [Py.joinWith]
    | cons y acc2 =>
      simp only [List.cons_append, Py.joinWith, List.isEmpty_cons] at ih ⊢
      simp [ih, List.append_assoc]

/-- Length of the joined accumulator after appending one line. -/
theorem SMTP.joinNL_snoc_length (acc : List Str) (l : Str) :
    (SMTP.joinNL (acc ++ [l])).length =
      if acc.isEmpty then l.length
      else (SMTP.joinNL acc).length + 1 + l.length := by
  unfold SMTP.joinNL
  rw [Py.joinWith_snoc]
  by_cases h : acc.isEmpty
  · simp [h]
  · simp [h, Py.strOf]
    omega

/-- Invariant of the DATA-mode fold: starting from an accumulator of
joined size at most `cap + L` and receiving lines of length at most
`L`, the joined size stays at most `cap + L`. -/
theorem SMTP.runData_bound (cap L : Nat) :
    ∀ (lines : List Str) (acc : List Str),
      (∀ l ∈ lines, l.length ≤ L) →
      (SMTP.joinNL acc).length ≤ cap + L →
      (SMTP.joinNL (lines.foldl (SMTP.dataLineStep cap) acc)).length ≤
        cap + L := by
  intro lines
  induction lines with
  | nil => intro acc _ hacc; simpa using hacc
  | cons l rest ih =>
    intro acc hlen hacc
    simp only [List.foldl_cons]
    refine ih (SMTP.dataLineStep cap acc l)
      (fun x hx => hlen x (List.mem_cons_of_mem l hx)) ?_
    unfold SMTP.dataLineStep
    by_cases h : (SMTP.joinNL acc).length < cap
    · rw [if_pos h, SMTP.joinNL_snoc_length]
      have hl : l.length ≤ L := hlen l (List.mem_cons_self l rest)
      by_cases he : acc.isEmpty
      · simp [he]; omega
      · simp [he]; omega
    · rw [if_neg h]; exact hacc

/-- C2 counterexample.  The claim asserts `message_size ≤ maxMessageSize`
and that excess bytes are dropped; in the code a whole line is appended
whenever the accumulator is still below the cap, so the message can
overshoot.  With `maxMessageSize = 5` and DATA lines `"abc"`, `"defgh"`,
the emitted `message_size` is 9 > 5. -/
theorem C2_counterexample :
    SMTP.message_size 5 [strOf "abc", strOf "defgh"] = 9 ∧ 5 < 9 := by
  exact ⟨by decide, by decide⟩

/-- C2 (amended): a DATA-mode line is appended only while the
accumulated size is still strictly below `maxMessageSize` (once the
accumulator reaches the cap, further lines are dropped), so the
`message_size` of the emitted event can exceed `maxMessageSize` by at
most one joining newline plus the final line: it is bounded by
`maxMessageSize + L` for any bound `L` on the line lengths. -/
theorem C2_amended (cap L : Nat) (lines : List Str)
    (hL : ∀ l ∈ lines, l.length ≤ L) :
    SMTP.message_size cap lines ≤ cap + L ∧
    (∀ (acc : List Str) (line : Str),
      cap ≤ (SMTP.joinNL acc).length →
      SMTP.dataLineStep cap acc line = acc) := by
  constructor
  · exact SMTP.runData_bound cap L lines [] hL (by simp [SMTP.joinNL, Py.joinWith])
  · intro acc line h
    unfold SMTP.dataLineStep
    rw [if_neg (by omega)]

/-- C2 witness: the bound applied at `cap = 5`, `L = 5` and the
counterexample's lines. -/
theorem C2_witness :
    (∀ l ∈ [strOf "abc", strOf "defgh"], l.length ≤ 5) ∧
    SMTP.message_size 5 [strOf "abc", strOf "defgh"] ≤ 5 + 5 :=
  ⟨by decide, (C2_amended 5 5 [strOf "abc", strOf "defgh"] (by decide)).1⟩

/-- C3 counterexample.  For the request
`GET /search?q=1%20UNION%20SELECT%201 HTTP/1.1\r\nHost: x\r\n\r\n` the
claim expects `attack_type = "sql_injection"`; the code classifies it
as no attack, because `\s+` in `UNION\s+SELECT` does not match the
percent-encoded `%20` and no other pattern matches the raw target. -/
theorem C3_counterexample :
    (HTTP.handle_connection
        (strOf "GET /search?q=1%20UNION%20SELECT%201 HTTP/1.1\r\nHost: x\r\n\r\n")).map
      (fun e => e.1.attack_type) = some [] ∧
    ([] : Str) ≠ strOf "sql_injection" := by
  exact ⟨by decide, by decide⟩

set_option maxRecDepth 8192 in
/-- C3 (amended): for that request the honeypot emits exactly one
`http_request` event — with `attack_type = ""`, since the query string
is percent-encoded and no compiled pattern matches — and replies with
the 404 default HTML response. -/
theorem C3_amended :
    HTTP.handle_connection
        (strOf "GET /search?q=1%20UNION%20SELECT%201 HTTP/1.1\r\nHost: x\r\n\r\n") =
      some
        ({ method := strOf "GET",
           path := strOf "/search?q=1%20UNION%20SELECT%201",
           headers := [(strOf "Host", strOf "x")],
           body := [], user_agent := [], attack_type := [] },
         HTTP.default_404) := by
  decide

/-- C4: `detect_attack` returns the first category, in the fixed order
sql_injection → xss → path_traversal → reconnaissance, whose pattern
set matches, and the empty tag when none matches; a later category
never influences the result once an earlier one matched. -/
theorem C4_first_match (path : Str) (headers : List (Str × Str)) (body : Str) :
    HTTP.detect_attack path headers body =
      HTTP.firstMatchingCategory path headers body := by
  unfold HTTP.detect_attack HTTP.firstMatchingCategory HTTP.categoryHits
  cases hs : HTTP.sqlHit path headers body <;>
    cases hx : HTTP.xssHit path headers body <;>
      cases ht : HTTP.travHit path <;>
        cases hr : HTTP.reconHit path <;>
          simp [List.find?]

set_option maxRecDepth 8192 in
/-- C5 counterexample.  Two requests that differ only in the order of
their two header entries: with `A: UNION` before `B: SELECT` the joined
header values read `UNION SELECT` and the classifier answers
`sql_injection`; with the lines swapped they read `SELECT UNION` and
the classifier answers the empty tag. -/
theorem C5_counterexample :
    HTTP.parse_request (strOf "GET / HTTP/1.1\r\nA: UNION\r\nB: SELECT\r\n\r\n") =
      some (strOf "GET", strOf "/",
        [(strOf "A", strOf "UNION"), (strOf "B", strOf "SELECT")], []) ∧
    HTTP.parse_request (strOf "GET / HTTP/1.1\r\nB: SELECT\r\nA: UNION\r\n\r\n") =
      some (strOf "GET", strOf "/",
        [(strOf "B", strOf "SELECT"), (strOf "A", strOf "UNION")], []) ∧
    HTTP.detect_attack (strOf "/")
        [(strOf "A", strOf "UNION"), (strOf "B", strOf "SELECT")] [] =
      strOf "sql_injection" ∧
    HTTP.detect_attack (strOf "/")
        [(strOf "B", strOf "SELECT"), (strOf "A", strOf "UNION")] [] = [] := by
  exact ⟨rfl, rfl, by decide, by decide⟩

/-- C5 (amended): the classification is a deterministic function of the
compiled pattern set and the request content — it depends only on the
path and the scanned `full_input` string — but the header values enter
that string in their parsed order, so reordering header entries can
change the result (see the counterexample). -/
theorem C5_amended (path : Str) (h1 h2 : List (Str × Str)) (b1 b2 : Str)
    (h : HTTP.full_input path (Py.dictValues h1) b1 =
      HTTP.full_input path (Py.dictValues h2) b2) :
    HTTP.detect_attack path h1 b1 = HTTP.detect_attack path h2 b2 := by
  simp only [HTTP.detect_attack, HTTP.sqlHit, HTTP.xssHit, h]

/-- C5 witness: the determinism theorem applied at a concrete request. -/
theorem C5_witness :
    HTTP.full_input (strOf "/") (Py.dictValues [(strOf "a", strOf "b")]) [] =
      HTTP.full_input (strOf "/") (Py.dictValues [(strOf "a", strOf "b")]) [] ∧
    HTTP.detect_attack (strOf "/") [(strOf "a", strOf "b")] [] =
      HTTP.detect_attack (strOf "/") [(strOf "a", strOf "b")] [] :=
  ⟨rfl, C5_amended (strOf "/") [(strOf "a", strOf "b")]
    [(strOf "a", strOf "b")] [] [] rfl⟩

/-- `rstrip` removes a whitespace suffix: the original string is the
stripped part followed by the removed (all-whitespace) suffix. -/
theorem Py.rstrip_append (t : Str) :
    Py.rstrip t ++ (t.reverse.takeWhile Py.isSpace).reverse = t := by
  unfold Py.rstrip
  rw [← List.reverse_append, List.takeWhile_append_dropWhile,
    List.reverse_reverse]

/-- A word with no whitespace characters is a prefix of `rstrip t` iff
it is a prefix of `t`. -/
theorem Py.prefix_rstrip_iff (w t : Str)
    (hw : ∀ c ∈ w, Py.isSpace c = false) :
    w <+: Py.rstrip t ↔ w <+: t := by
  constructor
  · intro h
    have := h.trans (List.prefix_append (Py.rstrip t)
      ((t.reverse.takeWhile Py.isSpace).reverse))
    rwa [Py.rstrip_append] at this
  · intro h
    have hpre : Py.rstrip t <+: t := by
      conv_rhs => rw [← Py.rstrip_append t]
      exact List.prefix_append _ _
    rcases List.prefix_or_prefix_of_prefix h hpre with h1 | h2
    · exact h1
    · obtain ⟨w2, rfl⟩ := h2
      cases w2 with
      | nil => simp
      | cons c w3 =>
        exfalso
        have h3 : c :: w3 <+: (t.reverse.takeWhile Py.isSpace).reverse := by
          refine (List.prefix_append_right_inj (Py.rstrip t)).mp ?_
          rwa [Py.rstrip_append]
        obtain ⟨r, hr⟩ := h3
        have hc : c ∈ (t.reverse.takeWhile Py.isSpace).reverse := by
          rw [← hr]; simp
        have htrue : Py.isSpace c = true :=
          List.mem_takeWhile_imp (List.mem_reverse.mp hc)
        have hfalse : Py.isSpace c = false := hw c (by simp)
        rw [htrue] at hfalse
        exact absurd hfalse (by simp)

/-- The `startswith select` test is insensitive to the trailing strip:
`query.lower().strip()` starts with `select` iff the leading-trimmed
lowercased query does. -/
theorem MySQL.select_cond_eq (u : Str) :
    (strOf "select").isPrefixOf (Py.strip u) =
      (strOf "select").isPrefixOf (Py.lstrip u) := by
  have hw : ∀ c ∈ strOf "select", Py.isSpace c = false := by decide
  unfold Py.strip
  rw [Bool.eq_iff_iff, List.isPrefixOf_iff_prefix, List.isPrefixOf_iff_prefix]
  exact Py.prefix_rstrip_iff (strOf "select") (Py.lstrip u) hw

/-- C7: a parsed `COM_QUERY` whose query, lowercased and trimmed of
leading whitespace, begins with `select` is answered with the canned
empty result set — a column-count packet declaring 1 column (seq
`0x01`), one column-definition packet (seq `0x02`) for a varchar
(type `0xfd`) column named `result`, and two EOF packets (marker
`0xfe`, seq `0x03` and `0x04`) — so the sequence numbers run
`0x01, 0x02, 0x03, 0x04`; every other query is answered with the OK
packet. -/
theorem C7_query_response (query : Str) :
    ((strOf "select").isPrefixOf (Py.lstrip (Py.lower query)) = true →
      MySQL.build_query_response query = MySQL.build_empty_result) ∧
    ((strOf "select").isPrefixOf (Py.lstrip (Py.lower query)) = false →
      MySQL.build_query_response query = MySQL.build_ok_packet) ∧
    MySQL.build_empty_result =
      MySQL.col_count_packet ++
        (MySQL.u24le MySQL.col_def_payload.length ++ [0x02] ++
          MySQL.col_def_payload) ++
        MySQL.eof_packet1 ++ MySQL.eof_packet2 ∧
    MySQL.col_count_packet.getD 3 0 = 0x01 ∧
    MySQL.col_count_packet.getD 4 0 = 1 ∧
    (MySQL.u24le MySQL.col_def_payload.length ++ [0x02] ++
      MySQL.col_def_payload).getD 3 0 = 0x02 ∧
    MySQL.eof_packet1.getD 3 0 = 0x03 ∧ MySQL.eof_packet1.getD 4 0 = 0xfe ∧
    MySQL.eof_packet2.getD 3 0 = 0x04 ∧ MySQL.eof_packet2.getD 4 0 = 0xfe ∧
    (MySQL.col_def_payload.drop 7).take 7 = [6] ++ MySQL.strBytes "result" ∧
    MySQL.col_def_payload.getD 22 0 = 0xfd := by
  refine ⟨?_, ?_, by decide, by decide, by decide, by decide, by decide,
    by decide, by decide, by decide, by decide, by decide⟩
  · intro h
    unfold MySQL.build_query_response
    rw [MySQL.select_cond_eq, h]
    rfl
  · intro h
    unfold MySQL.build_query_response
    rw [MySQL.select_cond_eq, h]
    rfl

/-- C7 witness: the two branches at concrete queries. -/
theorem C7_query_response_witness :
    MySQL.build_query_response (strOf "  SELECT 1") =
      MySQL.build_empty_result ∧
    MySQL.build_query_response (strOf "SHOW TABLES") =
      MySQL.build_ok_packet :=
  ⟨(C7_query_response (strOf "  SELECT 1")).1 (by decide),
   (C7_query_response (strOf "SHOW TABLES")).2.1 (by decide)⟩

/-- C8 counterexample.  The claim says every `POST /api/login` returns
401 and logs a `login_attempt`; a body that starts with a brace but is
not valid JSON (here the single character `{`) makes `json.loads`
raise, so the handler answers 400 from the `except` branch and no
`login_attempt` is logged. -/
theorem C8_counterexample :
    Json.jsonLoads (strOf "\x7b") = none ∧
    API.do_login (strOf "\x7b") = (.errText 400, none) ∧
    (∀ v : Json.JVal, API.ApiResult.errText 400 ≠ API.ApiResult.json 401 v) :=
  ⟨rfl, rfl, fun _ h => API.ApiResult.noConfusion h⟩

/-- C8 (amended): for every request body except those that start with a
brace and fail to parse as a JSON object (which get 400 with no log),
`POST /api/login` returns 401 and logs a `login_attempt` warning with
the submitted username; in particular for a JSON-object body with
fields, the logged username is the body's `username` value. -/
theorem C8_amended (body : Str)
    (h : (strOf "\x7b").isPrefixOf body = true →
      ∃ kvs, Json.jsonLoads body = some (.obj kvs)) :
    (API.do_login body).1 = .json 401 API.login_failed_body ∧
    (∃ u, (API.do_login body).2 = some u) ∧
    (∀ kvs, (strOf "\x7b").isPrefixOf body = true →
      Json.jsonLoads body = some (.obj kvs) → kvs ≠ [] →
      (API.do_login body).2 =
        some (Py.dictGet kvs (strOf "username") (.str []))) := by
  cases hb : (strOf "\x7b").isPrefixOf body with
  | true =>
    obtain ⟨kvs, hkvs⟩ := h hb
    refine ⟨?_, ?_, ?_⟩
    · simp [API.do_login, hb, hkvs]
    · exact Option.isSome_iff_exists.mp (by simp [API.do_login, hb, hkvs])
    · intro kvs2 _ hkvs2 hne
      rw [hkvs] at hkvs2
      obtain rfl : kvs = kvs2 := by
        injection hkvs2 with h2
        injection h2
      have : kvs.isEmpty = false := by
        cases kvs with
        | nil => exact absurd rfl hne
        | cons a l => rfl
      simp [API.do_login, hb, hkvs, this]
  | false =>
    refine ⟨?_, ?_, ?_⟩
    · simp [API.do_login, hb]
    · exact Option.isSome_iff_exists.mp (by simp [API.do_login, hb])
    · intro kvs2 hcontra
      exact absurd hcontra (by simp)

/-- C8 witness: the amended theorem at a JSON body with a username. -/
theorem C8_witness :
    ((strOf "\x7b").isPrefixOf (strOf "\x7b\"username\": \"eve\"\x7d") = true →
      ∃ kvs, Json.jsonLoads (strOf "\x7b\"username\": \"eve\"\x7d") =
        some (.obj kvs)) ∧
    (API.do_login (strOf "\x7b\"username\": \"eve\"\x7d")).1 =
      .json 401 API.login_failed_body ∧
    (∃ u, (API.do_login (strOf "\x7b\"username\": \"eve\"\x7d")).2 = some u) :=
  have h : (strOf "\x7b").isPrefixOf (strOf "\x7b\"username\": \"eve\"\x7d") = true →
      ∃ kvs, Json.jsonLoads (strOf "\x7b\"username\": \"eve\"\x7d") =
        some (.obj kvs) :=
    fun _ => ⟨[(strOf "username", .str (strOf "eve"))], rfl⟩
  ⟨h, (C8_amended _ h).1, (C8_amended _ h).2.1⟩

/-- C9 counterexample.  The claim says every empty-or-valid-JSON body
gets `200 {"results": []}`; the body `[]` is valid JSON, but the parse
result is a list, `data.get` raises `AttributeError`, and the handler
answers 400 from the `except` branch. -/
theorem C9_counterexample :
    Json.jsonLoads (strOf "[]") = some (.arr []) ∧
    API.do_search (strOf "[]") = .errText 400 ∧
    (∀ v : Json.JVal, API.ApiResult.errText 400 ≠ API.ApiResult.json 200 v) :=
  ⟨rfl, rfl, fun _ h => API.ApiResult.noConfusion h⟩

/-- C9 (amended): for every body that is empty or parses as a JSON
object whose `q` field is a string (or absent), `POST /api/search`
answers `200 {"results": []}`; the injection-substring check influences
only logging, so any two such runs — in particular one whose `q`
matches the substring set and one whose `q` does not — produce the same
response. -/
theorem C9_amended (b1 b2 : Str)
    (h1 : b1 = [] ∨ ∃ kvs s, Json.jsonLoads b1 = some (.obj kvs) ∧
      Py.dictGet kvs (strOf "q") (.str []) = .str s)
    (h2 : b2 = [] ∨ ∃ kvs s, Json.jsonLoads b2 = some (.obj kvs) ∧
      Py.dictGet kvs (strOf "q") (.str []) = .str s) :
    API.do_search b1 = .json 200 API.search_results_body ∧
    API.do_search b1 = API.do_search b2 := by
  have key : ∀ b : Str,
      (b = [] ∨ ∃ kvs s, Json.jsonLoads b = some (.obj kvs) ∧
        Py.dictGet kvs (strOf "q") (.str []) = .str s) →
      API.do_search b = .json 200 API.search_results_body := by
    intro b hb
    rcases hb with rfl | ⟨kvs, s, hload, hq⟩
    · rfl
    · cases b with
      | nil =>
        rw [show Json.jsonLoads [] = none from rfl] at hload
        exact absurd hload (by simp)
      | cons c rest => simp [API.do_search, hload, hq]
  exact ⟨key b1 h1, (key b1 h1).trans (key b2 h2).symm⟩

/-- C9 witness: two concrete runs differing exactly in whether `q`
matches the injection substrings get the same 200 response. -/
theorem C9_witness :
    API.search_flagged (strOf "1 union select") = true ∧
    API.search_flagged (strOf "hello") = false ∧
    API.do_search (strOf "\x7b\"q\": \"1 union select\"\x7d") =
      .json 200 API.search_results_body ∧
    API.do_search (strOf "\x7b\"q\": \"1 union select\"\x7d") =
      API.do_search (strOf "\x7b\"q\": \"hello\"\x7d") :=
  have h1 : (strOf "\x7b\"q\": \"1 union select\"\x7d" : Str) = [] ∨
      ∃ kvs s, Json.jsonLoads (strOf "\x7b\"q\": \"1 union select\"\x7d") =
        some (.obj kvs) ∧ Py.dictGet kvs (strOf "q") (.str []) = .str s :=
    Or.inr ⟨[(strOf "q", .str (strOf "1 union select"))],
      strOf "1 union select", rfl, rfl⟩
  have h2 : (strOf "\x7b\"q\": \"hello\"\x7d" : Str) = [] ∨
      ∃ kvs s, Json.jsonLoads (strOf "\x7b\"q\": \"hello\"\x7d") =
        some (.obj kvs) ∧ Py.dictGet kvs (strOf "q") (.str []) = .str s :=
    Or.inr ⟨[(strOf "q", .str (strOf "hello"))], strOf "hello", rfl, rfl⟩
  ⟨by decide, by decide, (C9_amended _ _ h1 h2).1, (C9_amended _ _ h1 h2).2⟩

/-- A single-character separator at the head of the input ends the
current chunk. -/
theorem Py.pySplitAux_hit (c : Char) (rest acc : Str) (fuel : Nat) :
    Py.pySplitAux c [] (fuel + 1) (c :: rest) acc =
      acc.reverse :: Py.pySplitAux c [] fuel rest [] := by
  conv_lhs => unfold Py.pySplitAux
  rw [if_pos (by simp [List.isPrefixOf])]
  simp only [List.length_nil, List.drop_zero]

/-- Splitting on a single character not occurring in the input yields
one chunk. -/
theorem Py.pySplitAux_no_sep (c : Char) :
    ∀ (s acc : Str) (fuel : Nat), s.length < fuel → (∀ x ∈ s, x ≠ c) →
      Py.pySplitAux c [] fuel s acc = [acc.reverse ++ s] := by
  intro s
  induction s with
  | nil =>
    intro acc fuel hf _
    cases fuel with
    | zero => omega
    | succ f => simp [Py.pySplitAux]
  | cons x rest ih =>
    intro acc fuel hf hx
    cases fuel with
    | zero => omega
    | succ f =>
      conv_lhs => unfold Py.pySplitAux
      rw [if_neg (by
        simp only [List.isPrefixOf, Bool.and_eq_true, beq_iff_eq]
        intro hcx
        exact hx x (by simp) hcx.1.symm)]
      rw [ih (x :: acc) f (by simpa using hf)
        (fun y hy => hx y (List.mem_cons_of_mem x hy))]
      simp

/-- Consuming a separator-free word advances the accumulator. -/
theorem Py.pySplitAux_word (c : Char) (w : Str) (hw : ∀ x ∈ w, x ≠ c) :
    ∀ (rest acc : Str) (fuel : Nat),
      Py.pySplitAux c [] (w.length + (fuel + 1)) (w ++ rest) acc =
        Py.pySplitAux c [] (fuel + 1) rest (w.reverse ++ acc) := by
  induction w with
  | nil => intro rest acc fuel; simp
  | cons x w2 ih =>
    intro rest acc fuel
    rw [show (x :: w2).length + (fuel + 1) = (w2.length + (fuel + 1)) + 1 by
      simp; omega]
    show Py.pySplitAux c [] ((w2.length + (fuel + 1)) + 1)
        (x :: (w2 ++ rest)) acc = _
    conv_lhs => unfold Py.pySplitAux
    rw [if_neg (by
      simp only [List.isPrefixOf, Bool.and_eq_true, beq_iff_eq]
      intro hcx
      exact hw x (by simp) hcx.1.symm)]
    rw [ih (fun y hy => hw y (List.mem_cons_of_mem x hy)) rest (x :: acc) fuel]
    simp

/-- `path.split("/")[-1]` for a path of the form
`/api/products/{seg}` with a slash-free final segment. -/
theorem API.split_products (seg : Str) (hseg : ∀ x ∈ seg, x ≠ '/') :
    Py.pySplit '/' [] (strOf "/api/products/" ++ seg) =
      [[], strOf "api", strOf "products", seg] := by
  unfold Py.pySplit
  have hlen : (strOf "/api/products/" ++ seg).length = 14 + seg.length := by
    simp [Py.strOf]
    omega
  rw [hlen]
  have hs : strOf "/api/products/" ++ seg =
      '/' :: (strOf "api" ++ ('/' :: (strOf "products" ++ ('/' :: seg)))) := rfl
  rw [hs]
  rw [Py.pySplitAux_hit]
  have hapi : ∀ x ∈ strOf "api", x ≠ '/' := by decide
  rw [show 14 + seg.length
      = (strOf "api").length + ((10 + seg.length) + 1) by
    simp [Py.strOf]
    omega]
  rw [Py.pySplitAux_word '/' (strOf "api") hapi]
  rw [Py.pySplitAux_hit]
  have hprod : ∀ x ∈ strOf "products", x ≠ '/' := by decide
  rw [show 10 + seg.length
      = (strOf "products").length + ((1 + seg.length) + 1) by
    simp [Py.strOf]
    omega]
  rw [Py.pySplitAux_word '/' (strOf "products") hprod]
  rw [Py.pySplitAux_hit]
  rw [Py.pySplitAux_no_sep '/' seg [] (1 + seg.length) (by omega) hseg]
  simp

/-- C10: for `GET /api/products/{seg}` (slash-free final segment):
a segment `int()` cannot parse gets `400 {"error": "Invalid product
ID"}`; an integer with no matching product id gets `404 {"error":
"Product not found"}`; a matching product is returned with 200. -/
theorem C10_product_routes (seg : Str) (hseg : ∀ x ∈ seg, x ≠ '/') :
    (API.pyInt seg = none →
      API.do_GET (strOf "/api/products/" ++ seg) =
        .json 400 (.obj [(strOf "error", .str (strOf "Invalid product ID"))])) ∧
    (∀ n, API.pyInt seg = some n →
      API.PRODUCTS.find? (fun p => p.id == n) = none →
      API.do_GET (strOf "/api/products/" ++ seg) =
        .json 404 (.obj [(strOf "error", .str (strOf "Product not found"))])) ∧
    (∀ n p, API.pyInt seg = some n →
      API.PRODUCTS.find? (fun q => q.id == n) = some p →
      API.do_GET (strOf "/api/products/" ++ seg) =
        .json 200 (API.productJson p)) := by
  have hneq : ((strOf "/api/products/" ++ seg) == strOf "/api/products") = false := by
    rw [beq_eq_false_iff_ne]
    intro h
    have := congrArg List.length h
    simp [Py.strOf] at this
  have hpre : (strOf "/api/products/").isPrefixOf
      (strOf "/api/products/" ++ seg) = true := by
    rw [List.isPrefixOf_iff_prefix]
    exact List.prefix_append _ _
  have hlast : API.lastSegment (strOf "/api/products/" ++ seg) = seg := by
    unfold API.lastSegment
    rw [API.split_products seg hseg]
    rfl
  refine ⟨?_, ?_, ?_⟩
  · intro h
    simp [API.do_GET, hneq, hpre, hlast, h]
  · intro n h hfind
    simp [API.do_GET, hneq, hpre, hlast, h, hfind]
  · intro n p h hfind
    simp [API.do_GET, hneq, hpre, hlast, h, hfind]

/-- C10 witness: the three routes at concrete segments `abc`, `9`, `2`. -/
theorem C10_product_routes_witness :
    API.do_GET (strOf "/api/products/abc") =
      .json 400 (.obj [(strOf "error", .str (strOf "Invalid product ID"))]) ∧
    API.do_GET (strOf "/api/products/9") =
      .json 404 (.obj [(strOf "error", .str (strOf "Product not found"))]) ∧
    API.do_GET (strOf "/api/products/2") =
      .json 200 (API.productJson
        ⟨2, strOf "Smartphone X", strOf "699.99", 100⟩) :=
  ⟨(C10_product_routes (strOf "abc") (by decide)).1 rfl,
   (C10_product_routes (strOf "9") (by decide)).2.1 9 rfl rfl,
   (C10_product_routes (strOf "2") (by decide)).2.2 2
     ⟨2, strOf "Smartphone X", strOf "699.99", 100⟩ rfl rfl⟩
